import Mathlib

/-!
Verification of the disaster-recovery (DR) database restore scripts.

The repository holds two Python scripts, `scripts/dr_restore.py` and
`scripts/dr_staging_db_restore.py`.  Each script reads a flat set of
environment variables, parses three command-line choices
(`action ∈ {create, destroy}`, `az_choice ∈ {primary-az, secondary-az,
tertiary-az}`, `update_dns ∈ {true, false}`) and then drives a strictly
ordered sequence of cloud-control-plane calls (describe / list / restore /
create / delete / wait / DNS upsert).

The embedding below models each script as a pure function from
  * the parsed arguments,
  * the environment-variable configuration (`Option String` per variable,
    mirroring `os.getenv`), and
  * a `World` record giving the response of every remote call the script
    can make (success, not-found, other error, returned data),
to the ordered list of remote calls the script issues together with the
process exit code.  `sys.exit(n)` and uncaught exceptions (which terminate
a Python process with exit code 1) are modelled with the `RunResult.exited`
constructor; falling off the end of `__main__` is exit code 0.
-/

/-- The `--az_choice` command line argument; argparse restricts it to the
three keys of the AZ mapping. -/
inductive AzChoice where
  | primaryAz | secondaryAz | tertiaryAz
  deriving Repr, DecidableEq

/-- The `--action` command line argument. -/
inductive CliAction where
  | create | destroy
  deriving Repr, DecidableEq

/-- The three parsed command line arguments (`--update_dns` is the choice
string compared against the literal "true", hence a `Bool` here). -/
structure Args where
  action : CliAction
  az_choice : AzChoice
  update_dns : Bool
  deriving Repr, DecidableEq

/-- One remote call attempted through a cloud client, with the parameters
the script passes.  `Option String` parameters are exactly the (possibly
absent) environment values the Python code forwards.  For the restore call,
`azs = some l` models passing `AvailabilityZones=l` and `none` models not
passing the parameter; likewise `az` on `createInstance` models the
optional `AvailabilityZone` parameter. -/
inductive RemoteCall where
  | getCallerIdentity
  | describeClusters (clusterId : Option String)
  | describeSnapshots
  | listRecoveryPoints (vault : String)
  | restoreCluster (clusterId : Option String) (snapshotId : String)
      (azs : Option (List String))
  | createInstance (instanceId : Option String) (clusterId : Option String)
      (az : Option String)
  | waitClusterAvailable (clusterId : Option String)
  | waitInstanceAvailable (instanceId : Option String)
  | deleteInstance (instanceId : Option String)
  | deleteCluster (clusterId : Option String)
  | waitInstanceDeleted (instanceId : Option String)
  | waitClusterDeleted (clusterId : Option String)
  | changeDns (zoneId : Option String) (recordName : Option String)
      (endpoint : String)
  deriving Repr, DecidableEq

/-- A remote call that mutates remote state (restore, create, delete and
DNS upsert); describe/list/wait calls are read-only. -/
def RemoteCall.isMutating : RemoteCall → Bool
  | .restoreCluster _ _ _ => true
  | .createInstance _ _ _ => true
  | .deleteInstance _ => true
  | .deleteCluster _ => true
  | .changeDns _ _ _ => true
  | _ => false

/-- Recognizes a create-instance call, whatever its parameters. -/
def RemoteCall.isCreateInstance : RemoteCall → Bool
  | .createInstance _ _ _ => true
  | _ => false

/-- Recognizes a restore-cluster call, whatever its parameters. -/
def RemoteCall.isRestoreCluster : RemoteCall → Bool
  | .restoreCluster _ _ _ => true
  | _ => false

/-- Recognizes a cluster-availability waiter call. -/
def RemoteCall.isWaitClusterAvailable : RemoteCall → Bool
  | .waitClusterAvailable _ => true
  | _ => false

/-- Index of the first element satisfying `p` (length of the list if none
does); used to state that one call is issued before another. -/
def firstIdx {α : Type} (p : α → Bool) : List α → Nat
  | [] => 0
  | c :: rest => if p c then 0 else firstIdx p rest + 1

/-- Result of running a script function: either a normal return carrying a
value, or process termination with an exit code (`sys.exit` or an uncaught
exception, the latter always exiting with code 1). -/
inductive RunResult (α : Type) where
  | ok (val : α)
  | exited (code : Nat)
  deriving Repr, DecidableEq

/-- Outcome of a boto3 delete call: success, the resource-specific
NotFoundFault, or any other exception. -/
inductive DeleteResult where
  | ok | notFound | otherError
  deriving Repr, DecidableEq

/-- Outcome of `describe_db_clusters` for a given identifier: the cluster
exists, the DBClusterNotFoundFault is raised, or some other exception. -/
inductive DescribeResult where
  | found | notFound | otherError
  deriving Repr, DecidableEq

/-- Python substring containment (`needle in hay`) on strings, modelled on
the underlying character lists. -/
def strContains (hay needle : String) : Bool :=
  (List.range (hay.data.length + 1)).any
    (fun i => needle.data.isPrefixOf (hay.data.drop i))

/-- The ASCII whitespace characters removed by Python `str.strip()`. -/
def pyIsSpace (c : Char) : Bool :=
  c == ' ' || c == '\t' || c == '\n' || c == '\r' || c == '\x0b' || c == '\x0c'

/-- Python `str.strip()` (ASCII whitespace model): drop leading and
trailing whitespace. -/
def pyStrip (s : String) : String :=
  String.mk (((s.data.dropWhile pyIsSpace).reverse.dropWhile pyIsSpace).reverse)

/-- Python `str.upper()` restricted to ASCII (the scripts compare against
the ASCII literal "YES"). -/
def pyUpper (s : String) : String :=
  String.mk (s.data.map Char.toUpper)

/-- One step of a stable descending insertion: the new element `x` is
placed after every already-placed element whose key is greater than or
equal to `key x`.  This is the behaviour of Python
`sorted(l, key=key, reverse=True)`, which is documented to be stable with
`reverse=True` (equal keys keep their original relative order). -/
def insertDesc {α : Type} (key : α → Nat) (x : α) : List α → List α
  | [] => [x]
  | y :: ys => if key y < key x then x :: y :: ys else y :: insertDesc key x ys

/-- Python `sorted(l, key=key, reverse=True)`: stable descending sort. -/
def sortDesc {α : Type} (key : α → Nat) (l : List α) : List α :=
  l.foldl (fun acc x => insertDesc key x acc) []

/-- The first element of `b :: l` attaining the maximum key (a later
element replaces the current best only when strictly greater); this is the
head of the stable descending sort, see `sortDesc_cons_head`. -/
def firstMaxFold {α : Type} (key : α → Nat) (b : α) (l : List α) : α :=
  l.foldl (fun best y => if key best < key y then y else best) b

namespace DrRestore

/-- The module-level environment variables of `scripts/dr_restore.py`
(lines 6-24), each read with `os.getenv` and hence possibly absent.
`AWS_REGION` only selects the client endpoint and is not modelled. -/
structure Config where
  DB_CLUSTER_IDENTIFIER : Option String
  DB_INSTANCE_IDENTIFIER : Option String
  DB_ENGINE : Option String
  DB_ENGINE_VERSION : Option String
  DB_INSTANCE_CLASS : Option String
  SNAPSHOT_TAG_KEY : Option String
  SNAPSHOT_TAG_VALUE : Option String
  DB_SUBNET_GROUP_NAME : Option String
  VPC_SECURITY_GROUP_ID : Option String
  HOSTED_ZONE_ID : Option String
  DNS_RECORD_NAME : Option String
  AZ_PRIMARY : Option String
  AZ_SECONDARY : Option String
  AZ_TERTIARY : Option String
  deriving Repr, DecidableEq

/-- The `AZ_MAPPING` dict of `dr_restore.py` (lines 20-24), keyed by the
argparse choice. -/
def azMapping (cfg : Config) : AzChoice → Option String
  | .primaryAz => cfg.AZ_PRIMARY
  | .secondaryAz => cfg.AZ_SECONDARY
  | .tertiaryAz => cfg.AZ_TERTIARY

/-- One manual DB cluster snapshot as returned by
`describe_db_cluster_snapshots`: identifier, creation time (timestamps
modelled as naturals, only their order matters) and tag list. -/
structure Snapshot where
  dbClusterSnapshotIdentifier : String
  snapshotCreateTime : Nat
  tagList : List (String × String)
  deriving Repr, DecidableEq

/-- The tag filter of `get_latest_snapshot` (lines 33-39): some tag has
key `SNAPSHOT_TAG_KEY` and value `SNAPSHOT_TAG_VALUE`.  Comparing a string
against an absent (None) configuration value is `False` in Python, which
the `Option` equality mirrors. -/
def snapshotTagMatch (cfg : Config) (s : Snapshot) : Bool :=
  s.tagList.any
    (fun t => (some t.1 == cfg.SNAPSHOT_TAG_KEY) && (some t.2 == cfg.SNAPSHOT_TAG_VALUE))

/-- Responses of the remote collaborators for one `dr_restore.py` run.
`snapshots = none` models the describe call raising (the script has no
try/except there, so the process dies with exit code 1); the `Bool`
fields tell whether the corresponding call succeeds. -/
structure World where
  snapshots : Option (List Snapshot)
  restoreOk : Bool
  createInstanceOk : Bool
  deleteInstanceResult : DeleteResult
  deleteClusterResult : DeleteResult
  describeEndpoint : Option String
  dnsChangeOk : Bool
  deriving Repr, DecidableEq

/-- `get_latest_snapshot` (lines 29-47): list manual snapshots, filter by
the configured tag, exit 1 if none match, else return the identifier of
the snapshot with the latest creation time (stable descending sort, first
element).  An empty filtered list is exactly the case where the sorted
list has no head. -/
def get_latest_snapshot (cfg : Config) (w : World) :
    List RemoteCall × RunResult String :=
  match w.snapshots with
  | none => ([RemoteCall.describeSnapshots], .exited 1)
  | some snaps =>
    let filtered := snaps.filter (snapshotTagMatch cfg)
    match (sortDesc (fun s => s.snapshotCreateTime) filtered).head? with
    | none => ([RemoteCall.describeSnapshots], .exited 1)
    | some latest =>
        ([RemoteCall.describeSnapshots], .ok latest.dbClusterSnapshotIdentifier)

/-- `create_dr_cluster` (lines 49-77): locate the latest snapshot, issue
the restore call (no AvailabilityZones parameter), THEN look up the AZ
choice and exit 1 if it is unset or empty (Python truthiness of
`if not az`), then create the DB instance pinned to that AZ.  There is no
try/except: any failing call kills the process with exit code 1, and there
is no waiter between the restore and the instance creation. -/
def create_dr_cluster (cfg : Config) (w : World) (az_choice : AzChoice) :
    List RemoteCall × RunResult Unit :=
  match get_latest_snapshot cfg w with
  | (calls, .exited c) => (calls, .exited c)
  | (calls, .ok snapshot_id) =>
    let restoreCall := RemoteCall.restoreCluster cfg.DB_CLUSTER_IDENTIFIER snapshot_id none
    if w.restoreOk = false then (calls ++ [restoreCall], .exited 1)
    else
      match azMapping cfg az_choice with
      | none => (calls ++ [restoreCall], .exited 1)
      | some az =>
        if az = "" then (calls ++ [restoreCall], .exited 1)
        else
          let createCall := RemoteCall.createInstance cfg.DB_INSTANCE_IDENTIFIER
            cfg.DB_CLUSTER_IDENTIFIER (some az)
          if w.createInstanceOk = false then
            (calls ++ [restoreCall, createCall], .exited 1)
          else (calls ++ [restoreCall, createCall], .ok ())

/-- `delete_dr_cluster` (lines 82-100): delete the instance, catching only
`DBInstanceNotFoundFault` (skip and continue); then delete the cluster,
catching only `DBClusterNotFoundFault`.  Any other exception is uncaught
and kills the process (exit 1) before the remaining steps.  There is no
confirmation gate and there are no deletion waiters in this script. -/
def delete_dr_cluster (cfg : Config) (w : World) :
    List RemoteCall × RunResult Unit :=
  let delInst := RemoteCall.deleteInstance cfg.DB_INSTANCE_IDENTIFIER
  match w.deleteInstanceResult with
  | .otherError => ([delInst], .exited 1)
  | _ =>
    let delClu := RemoteCall.deleteCluster cfg.DB_CLUSTER_IDENTIFIER
    match w.deleteClusterResult with
    | .otherError => ([delInst, delClu], .exited 1)
    | _ => ([delInst, delClu], .ok ())

/-- `update_dns_record` (lines 103-127): describe the cluster to resolve
its endpoint, then upsert the CNAME record.  No try/except: a failing call
kills the process with exit 1. -/
def update_dns_record (cfg : Config) (w : World) :
    List RemoteCall × RunResult Unit :=
  let descCall := RemoteCall.describeClusters cfg.DB_CLUSTER_IDENTIFIER
  match w.describeEndpoint with
  | none => ([descCall], .exited 1)
  | some endpoint =>
    let dnsCall := RemoteCall.changeDns cfg.HOSTED_ZONE_ID cfg.DNS_RECORD_NAME endpoint
    if w.dnsChangeOk = false then ([descCall, dnsCall], .exited 1)
    else ([descCall, dnsCall], .ok ())

/-- The `__main__` block of `dr_restore.py` (lines 130-144): create or
destroy according to `--action`, then update DNS only when
`--update_dns true` and the action was `create`.  Normal fall-through is
exit code 0. -/
def run (args : Args) (cfg : Config) (w : World) : List RemoteCall × Nat :=
  match args.action with
  | .create =>
    match create_dr_cluster cfg w args.az_choice with
    | (calls, .exited c) => (calls, c)
    | (calls, .ok _) =>
      if args.update_dns then
        match update_dns_record cfg w with
        | (calls2, .exited c) => (calls ++ calls2, c)
        | (calls2, .ok _) => (calls ++ calls2, 0)
      else (calls, 0)
  | .destroy =>
    match delete_dr_cluster cfg w with
    | (calls, .exited c) => (calls, c)
    | (calls, .ok _) => (calls, 0)

end DrRestore

namespace DrStaging

/-- The module-level environment variables of
`scripts/dr_staging_db_restore.py` (lines 10-24 and 147).  `AWS_REGION` is
hard-coded in this script.  `BACKUP_VAULT_NAME` and `CONFIRM_DESTROY` are
read with defaults at their use sites. -/
structure Config where
  DB_CLUSTER_IDENTIFIER : Option String
  DB_INSTANCE_IDENTIFIER : Option String
  DB_ENGINE : Option String
  DB_ENGINE_VERSION : Option String
  DB_INSTANCE_CLASS : Option String
  DB_SUBNET_GROUP_NAME : Option String
  VPC_SECURITY_GROUP_ID : Option String
  HOSTED_ZONE_ID : Option String
  DNS_RECORD_NAME : Option String
  BACKUP_VAULT_NAME : Option String
  AZ_PRIMARY : Option String
  AZ_SECONDARY : Option String
  AZ_TERTIARY : Option String
  CONFIRM_DESTROY : Option String
  deriving Repr, DecidableEq

/-- The `az_map` dict built inside `restore_cluster_from_snapshot`
(lines 89-93). -/
def azMap (cfg : Config) : AzChoice → Option String
  | .primaryAz => cfg.AZ_PRIMARY
  | .secondaryAz => cfg.AZ_SECONDARY
  | .tertiaryAz => cfg.AZ_TERTIARY

/-- One recovery point as returned by
`list_recovery_points_by_backup_vault`: ARN, creation date (timestamps
modelled as naturals), resource type and resource ARN. -/
structure RecoveryPoint where
  recoveryPointArn : String
  creationDate : Nat
  resourceType : String
  resourceArn : String
  deriving Repr, DecidableEq

/-- Responses of the remote collaborators for one
`dr_staging_db_restore.py` run.  `stsOk` is the module-level
`sts.get_caller_identity()` call (line 31) made at import time;
`recoveryPoints = none` models the list call raising (caught, exit 1).
The `Bool` waiter fields are `true` when the waiter reaches the target
state and `false` when it raises (timeout or failure). -/
structure World where
  stsOk : Bool
  describeCluster : DescribeResult
  recoveryPoints : Option (List RecoveryPoint)
  restoreOk : Bool
  clusterAvailable : Bool
  createInstanceOk : Bool
  instanceAvailable : Bool
  deleteInstanceResult : DeleteResult
  instanceDeleted : Bool
  deleteClusterResult : DeleteResult
  clusterDeleted : Bool
  describeEndpoint : Option String
  dnsChangeOk : Bool
  deriving Repr, DecidableEq

/-- The filter of `get_latest_backup_snapshot` (lines 48-52): Aurora
recovery points whose resource ARN contains the cluster identifier as a
substring (Python `in`). -/
def auroraPointMatch (cid : String) (rp : RecoveryPoint) : Bool :=
  (rp.resourceType == "Aurora") && strContains rp.resourceArn cid

/-- `get_latest_backup_snapshot` (lines 37-69): list the recovery points
of the vault (default name "disaster-recovery-vault"), exit 1 if the call
raises; filter to Aurora points of this cluster, exit 1 if none remain;
else return the ARN of the point with the latest creation date (stable
descending sort, first element).  When `DB_CLUSTER_IDENTIFIER` is unset
the Python comprehension either raises an uncaught TypeError (`None in
str`) on the first Aurora point or produces an empty list; both terminate
the process with exit code 1, which the `none` branch models. -/
def get_latest_backup_snapshot (cfg : Config) (w : World) :
    List RemoteCall × RunResult String :=
  let vault := cfg.BACKUP_VAULT_NAME.getD "disaster-recovery-vault"
  match w.recoveryPoints with
  | none => ([RemoteCall.listRecoveryPoints vault], .exited 1)
  | some resp =>
    match cfg.DB_CLUSTER_IDENTIFIER with
    | none => ([RemoteCall.listRecoveryPoints vault], .exited 1)
    | some cid =>
      let points := resp.filter (auroraPointMatch cid)
      match (sortDesc (fun rp => rp.creationDate) points).head? with
      | none => ([RemoteCall.listRecoveryPoints vault], .exited 1)
      | some latest =>
          ([RemoteCall.listRecoveryPoints vault], .ok latest.recoveryPointArn)

/-- `check_existing_cluster` (lines 72-84): describe the cluster; `true`
if found, `false` on `DBClusterNotFoundFault`, exit 1 on any other
exception. -/
def check_existing_cluster (cfg : Config) (w : World) :
    List RemoteCall × RunResult Bool :=
  let call := RemoteCall.describeClusters cfg.DB_CLUSTER_IDENTIFIER
  match w.describeCluster with
  | .found => ([call], .ok true)
  | .notFound => ([call], .ok false)
  | .otherError => ([call], .exited 1)

/-- `restore_cluster_from_snapshot` (lines 87-140): resolve the AZ choice
and exit 1 BEFORE any remote call if it is unset or empty (Python
truthiness of `if not target_az`); then, inside one try/except that exits
1 on any exception: restore the cluster pinned to
`AvailabilityZones=[target_az]`, wait until the cluster is available,
create the DB instance (no AvailabilityZone parameter), wait until the
instance is available.  `print_post_restore_info` then issues one more
describe call and swallows its own exceptions, so it never fails the
run. -/
def restore_cluster_from_snapshot (cfg : Config) (w : World)
    (snapshot_arn : String) (az_choice : AzChoice) :
    List RemoteCall × RunResult Unit :=
  match azMap cfg az_choice with
  | none => ([], .exited 1)
  | some target_az =>
    if target_az = "" then ([], .exited 1)
    else
      let restoreCall := RemoteCall.restoreCluster cfg.DB_CLUSTER_IDENTIFIER
        snapshot_arn (some [target_az])
      if w.restoreOk = false then ([restoreCall], .exited 1)
      else
        let waitC := RemoteCall.waitClusterAvailable cfg.DB_CLUSTER_IDENTIFIER
        if w.clusterAvailable = false then ([restoreCall, waitC], .exited 1)
        else
          let createCall := RemoteCall.createInstance cfg.DB_INSTANCE_IDENTIFIER
            cfg.DB_CLUSTER_IDENTIFIER none
          if w.createInstanceOk = false then
            ([restoreCall, waitC, createCall], .exited 1)
          else
            let waitI := RemoteCall.waitInstanceAvailable cfg.DB_INSTANCE_IDENTIFIER
            if w.instanceAvailable = false then
              ([restoreCall, waitC, createCall, waitI], .exited 1)
            else
              ([restoreCall, waitC, createCall, waitI,
                RemoteCall.describeClusters cfg.DB_CLUSTER_IDENTIFIER], .ok ())

/-- `destroy_dr_cluster` (lines 143-177): the confirmation gate reads
`CONFIRM_DESTROY` with default "NO", strips and uppercases it and aborts
with `sys.exit(0)` (a no-op success) unless the result equals "YES".
After the gate, one try/except that exits 1 on ANY exception drives:
delete instance, wait until deleted, delete cluster, wait until deleted.
Note the generic handler means a NotFoundFault during deletion also exits
1 in this script. -/
def destroy_dr_cluster (cfg : Config) (w : World) :
    List RemoteCall × RunResult Unit :=
  let confirmation := pyUpper (pyStrip (cfg.CONFIRM_DESTROY.getD "NO"))
  if confirmation ≠ "YES" then ([], .exited 0)
  else
    let delInst := RemoteCall.deleteInstance cfg.DB_INSTANCE_IDENTIFIER
    match w.deleteInstanceResult with
    | .ok =>
      let waitID := RemoteCall.waitInstanceDeleted cfg.DB_INSTANCE_IDENTIFIER
      if w.instanceDeleted = false then ([delInst, waitID], .exited 1)
      else
        let delClu := RemoteCall.deleteCluster cfg.DB_CLUSTER_IDENTIFIER
        match w.deleteClusterResult with
        | .ok =>
          let waitCD := RemoteCall.waitClusterDeleted cfg.DB_CLUSTER_IDENTIFIER
          if w.clusterDeleted = false then
            ([delInst, waitID, delClu, waitCD], .exited 1)
          else ([delInst, waitID, delClu, waitCD], .ok ())
        | _ => ([delInst, waitID, delClu], .exited 1)
    | _ => ([delInst], .exited 1)

/-- `update_dns_record` (lines 180-209): describe the cluster for its
endpoint and upsert the CNAME record, inside a try/except that exits 1 on
any failure. -/
def update_dns_record (cfg : Config) (w : World) :
    List RemoteCall × RunResult Unit :=
  let descCall := RemoteCall.describeClusters cfg.DB_CLUSTER_IDENTIFIER
  match w.describeEndpoint with
  | none => ([descCall], .exited 1)
  | some endpoint =>
    let dnsCall := RemoteCall.changeDns cfg.HOSTED_ZONE_ID cfg.DNS_RECORD_NAME endpoint
    if w.dnsChangeOk = false then ([descCall, dnsCall], .exited 1)
    else ([descCall, dnsCall], .ok ())

/-- The `__main__` block of `dr_staging_db_restore.py` (lines 236-260),
preceded by the module-level `sts.get_caller_identity()` call (line 31)
made at import time (if it raises, the process dies with exit 1 before
parsing arguments).  Create path: existence guard (exit 0 when the cluster
already exists), snapshot lookup, restore, optional DNS update.  Destroy
path: the destroy orchestrator alone.  Normal fall-through is exit 0. -/
def run (args : Args) (cfg : Config) (w : World) : List RemoteCall × Nat :=
  if w.stsOk = false then ([RemoteCall.getCallerIdentity], 1)
  else
    let sts := [RemoteCall.getCallerIdentity]
    match args.action with
    | .create =>
      match check_existing_cluster cfg w with
      | (c1, .exited code) => (sts ++ c1, code)
      | (c1, .ok true) => (sts ++ c1, 0)
      | (c1, .ok false) =>
        match get_latest_backup_snapshot cfg w with
        | (c2, .exited code) => (sts ++ c1 ++ c2, code)
        | (c2, .ok arn) =>
          match restore_cluster_from_snapshot cfg w arn args.az_choice with
          | (c3, .exited code) => (sts ++ c1 ++ c2 ++ c3, code)
          | (c3, .ok _) =>
            if args.update_dns then
              match update_dns_record cfg w with
              | (c4, .exited code) => (sts ++ c1 ++ c2 ++ c3 ++ c4, code)
              | (c4, .ok _) => (sts ++ c1 ++ c2 ++ c3 ++ c4, 0)
            else (sts ++ c1 ++ c2 ++ c3, 0)
    | .destroy =>
      match destroy_dr_cluster cfg w with
      | (c, .exited code) => (sts ++ c, code)
      | (c, .ok _) => (sts ++ c, 0)

end DrStaging

/-- A manual snapshot carrying the configured DR tag, used as concrete
test data. -/
def exSnapshot : DrRestore.Snapshot :=
  { dbClusterSnapshotIdentifier := "snap-1", snapshotCreateTime := 5,
    tagList := [("dr", "true")] }

/-- A fully populated environment for `dr_restore.py`. -/
def exCfgR : DrRestore.Config :=
  { DB_CLUSTER_IDENTIFIER := some "dr-db-cluster",
    DB_INSTANCE_IDENTIFIER := some "dr-db-instance",
    DB_ENGINE := some "aurora-postgresql",
    DB_ENGINE_VERSION := some "15.4",
    DB_INSTANCE_CLASS := some "db.r6g.large",
    SNAPSHOT_TAG_KEY := some "dr",
    SNAPSHOT_TAG_VALUE := some "true",
    DB_SUBNET_GROUP_NAME := some "dr-subnets",
    VPC_SECURITY_GROUP_ID := some "sg-1",
    HOSTED_ZONE_ID := some "Z1",
    DNS_RECORD_NAME := some "db.example.com",
    AZ_PRIMARY := some "zone-a",
    AZ_SECONDARY := some "zone-b",
    AZ_TERTIARY := some "zone-c" }

/-- The same environment with the primary AZ mapping entry unset. -/
def exCfgRnoAz : DrRestore.Config := { exCfgR with AZ_PRIMARY := none }

/-- A `dr_restore.py` world where every remote call succeeds and one
tagged snapshot exists. -/
def exWorldR : DrRestore.World :=
  { snapshots := some [exSnapshot], restoreOk := true, createInstanceOk := true,
    deleteInstanceResult := .ok, deleteClusterResult := .ok,
    describeEndpoint := some "ep.example", dnsChangeOk := true }

/-- An Aurora recovery point whose resource ARN contains the cluster
identifier, used as concrete test data. -/
def exPoint : DrStaging.RecoveryPoint :=
  { recoveryPointArn := "arn:rp-1", creationDate := 7,
    resourceType := "Aurora", resourceArn := "arn:aws:rds:cluster:dr-db-cluster" }

/-- A fully populated environment for `dr_staging_db_restore.py`, with the
destroy confirmation given. -/
def exCfgS : DrStaging.Config :=
  { DB_CLUSTER_IDENTIFIER := some "dr-db-cluster",
    DB_INSTANCE_IDENTIFIER := some "dr-db-instance",
    DB_ENGINE := some "aurora-postgresql",
    DB_ENGINE_VERSION := some "15.4",
    DB_INSTANCE_CLASS := some "db.r6g.large",
    DB_SUBNET_GROUP_NAME := some "dr-subnets",
    VPC_SECURITY_GROUP_ID := some "sg-1",
    HOSTED_ZONE_ID := some "Z1",
    DNS_RECORD_NAME := some "db.example.com",
    BACKUP_VAULT_NAME := none,
    AZ_PRIMARY := some "zone-a",
    AZ_SECONDARY := some "zone-b",
    AZ_TERTIARY := some "zone-c",
    CONFIRM_DESTROY := some "YES" }

/-- A staging world where every remote call succeeds, the cluster does not
exist yet, and one matching recovery point exists. -/
def exWorldS : DrStaging.World :=
  { stsOk := true, describeCluster := .notFound,
    recoveryPoints := some [exPoint],
    restoreOk := true, clusterAvailable := true,
    createInstanceOk := true, instanceAvailable := true,
    deleteInstanceResult := .ok, instanceDeleted := true,
    deleteClusterResult := .ok, clusterDeleted := true,
    describeEndpoint := some "ep.example", dnsChangeOk := true }

/-- The staging world with the target cluster already present. -/
def exWorldSfound : DrStaging.World := { exWorldS with describeCluster := .found }

/-- The staging world where deleting the instance raises the
NotFoundFault. -/
def exWorldSnotFound : DrStaging.World :=
  { exWorldS with deleteInstanceResult := .notFound }

/-- A staging configuration with every environment variable unset except
the cluster identifier. -/
def onlyClusterId (cid : String) : DrStaging.Config :=
  { DB_CLUSTER_IDENTIFIER := some cid,
    DB_INSTANCE_IDENTIFIER := none, DB_ENGINE := none,
    DB_ENGINE_VERSION := none, DB_INSTANCE_CLASS := none,
    DB_SUBNET_GROUP_NAME := none, VPC_SECURITY_GROUP_ID := none,
    HOSTED_ZONE_ID := none, DNS_RECORD_NAME := none,
    BACKUP_VAULT_NAME := none, AZ_PRIMARY := none, AZ_SECONDARY := none,
    AZ_TERTIARY := none, CONFIRM_DESTROY := none }

/-- The fully populated staging environment with a non-affirmative destroy
confirmation. -/
def exCfgSno : DrStaging.Config := { exCfgS with CONFIRM_DESTROY := some "no" }

/-- The fully populated staging environment with the primary AZ mapping
entry unset. -/
def exCfgSnoAz : DrStaging.Config := { exCfgS with AZ_PRIMARY := none }

/-- An older tagged snapshot (strictly earlier creation time than
`exSnapshot`). -/
def exSnapOld : DrRestore.Snapshot :=
  { dbClusterSnapshotIdentifier := "snap-0", snapshotCreateTime := 3,
    tagList := [("dr", "true")] }

/-- A second tagged snapshot sharing `exSnapshot`'s creation time,
listed after it. -/
def exSnapTie : DrRestore.Snapshot :=
  { dbClusterSnapshotIdentifier := "snap-2", snapshotCreateTime := 5,
    tagList := [("dr", "true")] }

/-- `dr_restore.py` world listing the older snapshot before the newest. -/
def exWorldR2 : DrRestore.World :=
  { exWorldR with snapshots := some [exSnapOld, exSnapshot] }

/-- `dr_restore.py` world listing two snapshots with equal creation
times. -/
def exWorldRtie : DrRestore.World :=
  { exWorldR with snapshots := some [exSnapshot, exSnapTie] }

/-- An older matching recovery point (strictly earlier creation date than
`exPoint`). -/
def exPointOld : DrStaging.RecoveryPoint :=
  { recoveryPointArn := "arn:rp-0", creationDate := 3,
    resourceType := "Aurora", resourceArn := "arn:aws:rds:cluster:dr-db-cluster" }

/-- A second matching recovery point sharing `exPoint`'s creation date,
listed after it. -/
def exPointTie : DrStaging.RecoveryPoint :=
  { recoveryPointArn := "arn:rp-2", creationDate := 7,
    resourceType := "Aurora", resourceArn := "arn:aws:rds:cluster:dr-db-cluster" }

/-- Staging world listing the older recovery point before the newest. -/
def exWorldS2 : DrStaging.World :=
  { exWorldS with recoveryPoints := some [exPointOld, exPoint] }

/-- Staging world listing two recovery points with equal creation
dates. -/
def exWorldStie : DrStaging.World :=
  { exWorldS with recoveryPoints := some [exPoint, exPointTie] }

/-!  Helper lemmas about the stable descending sort. -/

theorem foldl_insertDesc_head {α : Type} (key : α → Nat) :
    ∀ (l : List α) (b : α) (acc : List α),
      ∃ rest, List.foldl (fun acc x => insertDesc key x acc) (b :: acc) l
        = firstMaxFold key b l :: rest := by
  intro l
  induction l with
  | nil => intro b acc; exact ⟨acc, rfl⟩
  | cons x xs ih =>
      intro b acc
      rw [List.foldl_cons]
      by_cases h : key b < key x
      · have h1 : insertDesc key x (b :: acc) = x :: b :: acc := by
          simp [insertDesc, h]
        have h2 : firstMaxFold key b (x :: xs) = firstMaxFold key x xs := by
          simp [firstMaxFold, List.foldl_cons, h]
        rw [h1, h2]
        exact ih x (b :: acc)
      · have h1 : insertDesc key x (b :: acc) = b :: insertDesc key x acc := by
          simp [insertDesc, h]
        have h2 : firstMaxFold key b (x :: xs) = firstMaxFold key b xs := by
          simp [firstMaxFold, List.foldl_cons, h]
        rw [h1, h2]
        exact ih b (insertDesc key x acc)

theorem sortDesc_cons_head {α : Type} (key : α → Nat) (x : α) (xs : List α) :
    (sortDesc key (x :: xs)).head? = some (firstMaxFold key x xs) := by
  obtain ⟨rest, h⟩ := foldl_insertDesc_head key xs x []
  unfold sortDesc
  rw [List.foldl_cons]
  show (List.foldl (fun acc x => insertDesc key x acc) [x] xs).head?
      = some (firstMaxFold key x xs)
  rw [h]
  rfl

theorem firstMaxFold_strictmax {α : Type} (key : α → Nat) :
    ∀ (l : List α) (b s : α), s ∈ b :: l →
      (∀ t ∈ b :: l, t ≠ s → key t < key s) → firstMaxFold key b l = s := by
  intro l
  induction l with
  | nil =>
      intro b s hs _
      simp only [List.mem_cons, List.not_mem_nil, or_false] at hs
      subst hs; rfl
  | cons y ys ih =>
      intro b s hs h
      have hstep : firstMaxFold key b (y :: ys)
          = firstMaxFold key (if key b < key y then y else b) ys := by
        simp only [firstMaxFold, List.foldl_cons]
      rw [hstep]
      refine ih _ s ?_ ?_
      · by_cases hby : key b < key y
        · rw [if_pos hby]
          rcases List.mem_cons.mp hs with hsb | hs2
          · by_cases hys : y = s
            · subst hys; exact List.mem_cons_self _ _
            · have hlt := h y (by simp) hys
              subst hsb
              omega
          · exact hs2
        · rw [if_neg hby]
          rcases List.mem_cons.mp hs with hsb | hs2
          · subst hsb; exact List.mem_cons_self _ _
          · rcases List.mem_cons.mp hs2 with hsy | hs3
            · by_cases hbs : b = s
              · subst hbs; exact List.mem_cons_self _ _
              · have hlt := h b (by simp) hbs
                subst hsy
                omega
            · exact List.mem_cons_of_mem _ hs3
      · intro t ht hts
        rcases List.mem_cons.mp ht with h1 | h2
        · by_cases hby : key b < key y
          · rw [if_pos hby] at h1
            subst h1
            exact h t (by simp) hts
          · rw [if_neg hby] at h1
            subst h1
            exact h t (by simp) hts
        · exact h t (by simp [h2]) hts

theorem firstMaxFold_le_start {α : Type} (key : α → Nat) :
    ∀ (l : List α) (x : α), (∀ y ∈ l, key y ≤ key x) → firstMaxFold key x l = x := by
  intro l
  induction l with
  | nil => intro x _; rfl
  | cons y ys ih =>
      intro x h
      have hxy : ¬ key x < key y := by
        have := h y (by simp); omega
      have hstep : firstMaxFold key x (y :: ys) = firstMaxFold key x ys := by
        simp [firstMaxFold, List.foldl_cons, hxy]
      rw [hstep]
      exact ih x (fun z hz => h z (by simp [hz]))

theorem firstMaxFold_first {α : Type} (key : α → Nat) :
    ∀ (l₁ : List α) (b x : α) (l₂ : List α), key b < key x →
      (∀ y ∈ l₁, key y < key x) → (∀ y ∈ l₂, key y ≤ key x) →
      firstMaxFold key b (l₁ ++ x :: l₂) = x := by
  intro l₁
  induction l₁ with
  | nil =>
      intro b x l₂ hb _ h2
      rw [List.nil_append]
      have hstep : firstMaxFold key b (x :: l₂) = firstMaxFold key x l₂ := by
        simp [firstMaxFold, List.foldl_cons, hb]
      rw [hstep]
      exact firstMaxFold_le_start key l₂ x h2
  | cons c l₁' ih =>
      intro b x l₂ hb h1 h2
      have hcx : key c < key x := h1 c (by simp)
      have hstep : firstMaxFold key b ((c :: l₁') ++ x :: l₂)
          = firstMaxFold key (if key b < key c then c else b) (l₁' ++ x :: l₂) := by
        simp only [firstMaxFold, List.cons_append, List.foldl_cons]
      rw [hstep]
      refine ih _ x l₂ ?_ (fun y hy => h1 y (by simp [hy])) h2
      by_cases hbc : key b < key c
      · rw [if_pos hbc]; exact hcx
      · rw [if_neg hbc]; exact hb

theorem sortDesc_head_strictmax {α : Type} (key : α → Nat) (l : List α) (s : α)
    (hs : s ∈ l) (h : ∀ t ∈ l, t ≠ s → key t < key s) :
    (sortDesc key l).head? = some s := by
  cases l with
  | nil => simp at hs
  | cons c rest =>
      rw [sortDesc_cons_head]
      exact congrArg some (firstMaxFold_strictmax key rest c s hs h)

theorem sortDesc_head_first {α : Type} (key : α → Nat) (l₁ : List α) (x : α) (l₂ : List α)
    (h1 : ∀ y ∈ l₁, key y < key x) (h2 : ∀ y ∈ l₂, key y ≤ key x) :
    (sortDesc key (l₁ ++ x :: l₂)).head? = some x := by
  cases l₁ with
  | nil =>
      rw [List.nil_append, sortDesc_cons_head]
      exact congrArg some (firstMaxFold_le_start key l₂ x h2)
  | cons b l₁' =>
      rw [List.cons_append, sortDesc_cons_head]
      exact congrArg some
        (firstMaxFold_first key l₁' b x l₂ (h1 b (by simp))
          (fun y hy => h1 y (by simp [hy])) h2)


/-!  Helper lemmas about the traces of the individual components. -/

theorem firstIdx_append_of_none {α : Type} (p : α → Bool) :
    ∀ (l₁ l₂ : List α), l₁.all (fun a => !p a) = true →
      firstIdx p (l₁ ++ l₂) = l₁.length + firstIdx p l₂ := by
  intro l₁
  induction l₁ with
  | nil => intro l₂ _; simp
  | cons a l ih =>
      intro l₂ h
      simp only [List.all_cons, Bool.and_eq_true, Bool.not_eq_true'] at h
      have h1 : firstIdx p ((a :: l) ++ l₂) = firstIdx p (l ++ l₂) + 1 := by
        rw [List.cons_append]
        show (if p a = true then 0 else firstIdx p (l ++ l₂) + 1) = _
        rw [h.1]
        simp
      rw [h1, ih l₂ h.2, List.length_cons]
      omega

theorem any_eq_false_of_all_not {α : Type} (p : α → Bool) (l : List α)
    (h : l.all (fun a => !p a) = true) : l.any p = false := by
  induction l with
  | nil => rfl
  | cons a t ih =>
      simp only [List.all_cons, Bool.and_eq_true, Bool.not_eq_true'] at h
      simp [List.any_cons, h.1, ih h.2]

theorem DrRestore.gls_trace (cfg : DrRestore.Config) (w : DrRestore.World) :
    (DrRestore.get_latest_snapshot cfg w).1 = [RemoteCall.describeSnapshots] := by
  unfold DrRestore.get_latest_snapshot
  rcases hs : w.snapshots with _ | snaps
  · rfl
  · simp only []
    rcases hh : (sortDesc (fun s => s.snapshotCreateTime)
        (snaps.filter (DrRestore.snapshotTagMatch cfg))).head? with _ | latest <;>
      simp [hh]

theorem DrStaging.cec_trace (cfg : DrStaging.Config) (w : DrStaging.World) :
    (DrStaging.check_existing_cluster cfg w).1
      = [RemoteCall.describeClusters cfg.DB_CLUSTER_IDENTIFIER] := by
  unfold DrStaging.check_existing_cluster
  rcases w.describeCluster <;> rfl

theorem DrStaging.glbs_trace (cfg : DrStaging.Config) (w : DrStaging.World) :
    (DrStaging.get_latest_backup_snapshot cfg w).1
      = [RemoteCall.listRecoveryPoints (cfg.BACKUP_VAULT_NAME.getD "disaster-recovery-vault")] := by
  unfold DrStaging.get_latest_backup_snapshot
  rcases hr : w.recoveryPoints with _ | resp
  · rfl
  · rcases hc : cfg.DB_CLUSTER_IDENTIFIER with _ | cid
    · rfl
    · simp only []
      rcases hh : (sortDesc (fun rp => rp.creationDate)
          (resp.filter (DrStaging.auroraPointMatch cid))).head? with _ | latest <;>
        simp [hh]

theorem DrStaging.udr_clean (cfg : DrStaging.Config) (w : DrStaging.World) :
    (DrStaging.update_dns_record cfg w).1.all (fun e => !e.isCreateInstance) = true ∧
    (DrStaging.update_dns_record cfg w).1.all (fun e => !e.isWaitClusterAvailable) = true := by
  unfold DrStaging.update_dns_record
  rcases w.describeEndpoint with _ | ep
  · exact ⟨rfl, rfl⟩
  · simp only []
    rcases w.dnsChangeOk <;> exact ⟨rfl, rfl⟩

theorem DrStaging.rcfs_noavail_nocreate (cfg : DrStaging.Config) (w : DrStaging.World)
    (arn : String) (az : AzChoice) (h : w.clusterAvailable = false) :
    (DrStaging.restore_cluster_from_snapshot cfg w arn az).1.all
      (fun e => !e.isCreateInstance) = true := by
  unfold DrStaging.restore_cluster_from_snapshot
  rcases haz : DrStaging.azMap cfg az with _ | z
  · rfl
  · by_cases hz : z = ""
    · simp [hz]
    · rcases hro : w.restoreOk
      · simp [hz, hro, RemoteCall.isCreateInstance]
      · simp [hz, hro, h, RemoteCall.isCreateInstance]

theorem DrStaging.rcfs_noavail_exit (cfg : DrStaging.Config) (w : DrStaging.World)
    (arn : String) (az : AzChoice) (h : w.clusterAvailable = false) :
    (DrStaging.restore_cluster_from_snapshot cfg w arn az).2 = RunResult.exited 1 := by
  unfold DrStaging.restore_cluster_from_snapshot
  rcases haz : DrStaging.azMap cfg az with _ | z
  · rfl
  · by_cases hz : z = ""
    · simp [hz]
    · rcases hro : w.restoreOk
      · simp [hz, hro]
      · simp [hz, hro, h]

theorem DrStaging.rcfs_create_after_wait (cfg : DrStaging.Config) (w : DrStaging.World)
    (arn : String) (az : AzChoice)
    (h : (DrStaging.restore_cluster_from_snapshot cfg w arn az).1.any
      RemoteCall.isCreateInstance = true) :
    w.clusterAvailable = true ∧
    (DrStaging.restore_cluster_from_snapshot cfg w arn az).1.any
      RemoteCall.isWaitClusterAvailable = true ∧
    firstIdx RemoteCall.isWaitClusterAvailable
      (DrStaging.restore_cluster_from_snapshot cfg w arn az).1 = 1 ∧
    firstIdx RemoteCall.isCreateInstance
      (DrStaging.restore_cluster_from_snapshot cfg w arn az).1 = 2 := by
  rcases haz : DrStaging.azMap cfg az with _ | z
  · simp [DrStaging.restore_cluster_from_snapshot, haz,
      RemoteCall.isCreateInstance] at h
  · by_cases hz : z = ""
    · simp [DrStaging.restore_cluster_from_snapshot, haz, hz,
        RemoteCall.isCreateInstance] at h
    · rcases hro : w.restoreOk
      · simp [DrStaging.restore_cluster_from_snapshot, haz, hz, hro,
          RemoteCall.isCreateInstance] at h
      · rcases hca : w.clusterAvailable
        · simp [DrStaging.restore_cluster_from_snapshot, haz, hz, hro, hca,
            RemoteCall.isCreateInstance] at h
        · refine ⟨rfl, ?_, ?_, ?_⟩ <;>
            rcases hcio : w.createInstanceOk <;>
              rcases hia : w.instanceAvailable <;>
                simp [DrStaging.restore_cluster_from_snapshot, haz, hz, hro, hca,
                  hcio, hia, firstIdx,
                  RemoteCall.isWaitClusterAvailable, RemoteCall.isCreateInstance]

/-!  Claim theorems. -/

/-- C1 (amended): in `dr_staging_db_restore.py`, a destroy invocation whose
confirmation value does not normalize (strip, uppercase, default "NO") to
"YES" issues zero remote mutating calls — the trace is exactly the startup
identity call — and terminates with exit code 0.  (`dr_restore.py` has no
confirmation gate at all; see the counterexample.) -/
theorem C1_staging_destroy_gate (cfg : DrStaging.Config) (w : DrStaging.World)
    (az : AzChoice) (dns : Bool) (hs : w.stsOk = true)
    (hc : pyUpper (pyStrip (cfg.CONFIRM_DESTROY.getD "NO")) ≠ "YES") :
    DrStaging.run ⟨.destroy, az, dns⟩ cfg w = ([RemoteCall.getCallerIdentity], 0) ∧
    (DrStaging.run ⟨.destroy, az, dns⟩ cfg w).1.all (fun e => !e.isMutating) = true := by
  have hrun : DrStaging.run ⟨.destroy, az, dns⟩ cfg w
      = ([RemoteCall.getCallerIdentity], 0) := by
    simp [DrStaging.run, DrStaging.destroy_dr_cluster, hs, hc]
  exact ⟨hrun, by rw [hrun]; rfl⟩

/-- C1 witness: with `CONFIRM_DESTROY="no"` the staging destroy run is a
no-op success. -/
theorem C1_staging_destroy_gate_witness :
    DrStaging.run ⟨.destroy, .primaryAz, false⟩ exCfgSno exWorldS
      = ([RemoteCall.getCallerIdentity], 0) :=
  (C1_staging_destroy_gate exCfgSno exWorldS .primaryAz false rfl (by decide)).1

/-- C1 counterexample: `dr_restore.py` never reads a confirmation
variable, so a destroy invocation with no affirmative confirmation still
issues the delete-instance call (a remote mutating call), refuting the
claim that every unconfirmed destroy issues zero delete calls. -/
theorem C1_counterexample :
    RemoteCall.deleteInstance (some "dr-db-instance")
        ∈ (DrRestore.run ⟨.destroy, .primaryAz, false⟩ exCfgR exWorldR).1 ∧
    (DrRestore.run ⟨.destroy, .primaryAz, false⟩ exCfgR exWorldR).1.any
        RemoteCall.isMutating = true := by
  decide

/-- C5: in `dr_staging_db_restore.py`, a create invocation whose existence
guard finds the cluster already present terminates with exit code 0 having
issued only the startup identity call and the describe call — zero
restore, instance-creation and DNS calls.  (`dr_restore.py` has no
existence guard, so no invocation of it satisfies the claim's
hypothesis.) -/
theorem C5_create_idempotent (cfg : DrStaging.Config) (w : DrStaging.World)
    (az : AzChoice) (dns : Bool) (hs : w.stsOk = true)
    (hf : w.describeCluster = DescribeResult.found) :
    DrStaging.run ⟨.create, az, dns⟩ cfg w
      = ([RemoteCall.getCallerIdentity,
          RemoteCall.describeClusters cfg.DB_CLUSTER_IDENTIFIER], 0) ∧
    (DrStaging.run ⟨.create, az, dns⟩ cfg w).1.all (fun e => !e.isMutating) = true := by
  have hrun : DrStaging.run ⟨.create, az, dns⟩ cfg w
      = ([RemoteCall.getCallerIdentity,
          RemoteCall.describeClusters cfg.DB_CLUSTER_IDENTIFIER], 0) := by
    simp [DrStaging.run, DrStaging.check_existing_cluster, hs, hf]
  exact ⟨hrun, by rw [hrun]; rfl⟩

/-- C5 witness: a concrete create run against an already-present cluster
is a no-op success. -/
theorem C5_create_idempotent_witness :
    DrStaging.run ⟨.create, .primaryAz, true⟩ exCfgS exWorldSfound
      = ([RemoteCall.getCallerIdentity,
          RemoteCall.describeClusters (some "dr-db-cluster")], 0) :=
  (C5_create_idempotent exCfgS exWorldSfound .primaryAz true rfl rfl).1

/-- C6 (amended): in `dr_restore.py`, a delete step that raises the
resource-specific NotFoundFault is skipped as already satisfied and the
destroy run continues to overall success (exit 0).  In
`dr_staging_db_restore.py` the generic exception handler makes the same
situation fail the whole run with exit 1; see the counterexample. -/
theorem C6_restore_notfound_skip (cfg : DrRestore.Config) (w : DrRestore.World)
    (az : AzChoice) (dns : Bool)
    (hi : w.deleteInstanceResult ≠ DeleteResult.otherError)
    (hc : w.deleteClusterResult ≠ DeleteResult.otherError) :
    DrRestore.run ⟨.destroy, az, dns⟩ cfg w =
      ([RemoteCall.deleteInstance cfg.DB_INSTANCE_IDENTIFIER,
        RemoteCall.deleteCluster cfg.DB_CLUSTER_IDENTIFIER], 0) := by
  unfold DrRestore.run DrRestore.delete_dr_cluster
  rcases hdi : w.deleteInstanceResult <;> rcases hdc : w.deleteClusterResult <;>
    simp_all

/-- C6 witness: a destroy run of `dr_restore.py` in which both deletes
report not-found still ends with exit code 0. -/
theorem C6_restore_notfound_skip_witness :
    DrRestore.run ⟨.destroy, .primaryAz, false⟩ exCfgR
        { exWorldR with deleteInstanceResult := .notFound,
                        deleteClusterResult := .notFound } =
      ([RemoteCall.deleteInstance (some "dr-db-instance"),
        RemoteCall.deleteCluster (some "dr-db-cluster")], 0) :=
  C6_restore_notfound_skip exCfgR
    { exWorldR with deleteInstanceResult := .notFound,
                    deleteClusterResult := .notFound }
    .primaryAz false (by decide) (by decide)

/-- C6 counterexample: in `dr_staging_db_restore.py`, a confirmed destroy
run in which deleting the instance raises the NotFoundFault exits with
code 1 and never proceeds to the cluster deletion — the not-found step is
treated as a fatal error, not as already-satisfied success. -/
theorem C6_counterexample :
    DrStaging.run ⟨.destroy, .primaryAz, false⟩ exCfgS exWorldSnotFound
      = ([RemoteCall.getCallerIdentity,
          RemoteCall.deleteInstance (some "dr-db-instance")], 1) := by
  decide

/-- C8 (amended): neither script validates configuration at startup.  A
staging create run whose every environment variable except the cluster
identifier is missing still proceeds, issues remote calls, and (when the
existence guard finds the cluster) terminates successfully with exit code
0 — a missing required value causes no failure before its point of use. -/
theorem C8_no_startup_validation (cid : String) (w : DrStaging.World)
    (az : AzChoice) (dns : Bool) (hs : w.stsOk = true)
    (hf : w.describeCluster = DescribeResult.found) :
    DrStaging.run ⟨.create, az, dns⟩ (onlyClusterId cid) w
      = ([RemoteCall.getCallerIdentity, RemoteCall.describeClusters (some cid)], 0) := by
  simp [DrStaging.run, DrStaging.check_existing_cluster, onlyClusterId, hs, hf]

/-- C8 witness: the configuration-free run at a concrete identifier. -/
theorem C8_no_startup_validation_witness :
    DrStaging.run ⟨.create, .primaryAz, false⟩ (onlyClusterId "dr-db-cluster") exWorldSfound
      = ([RemoteCall.getCallerIdentity, RemoteCall.describeClusters (some "dr-db-cluster")], 0) :=
  C8_no_startup_validation "dr-db-cluster" exWorldSfound .primaryAz false rfl rfl

/-- C8 counterexample: an invocation with required configuration values
missing (engine, engine version, instance class, subnet group, security
group, DNS zone id, DNS record name, zone mapping — all unset) does not
fail at startup: it issues a remote call and terminates with exit code 0,
refuting the claim that every such invocation fails before any remote
call. -/
theorem C8_counterexample :
    DrStaging.run ⟨.create, .primaryAz, false⟩ (onlyClusterId "dr-db-cluster") exWorldSfound
      = ([RemoteCall.getCallerIdentity, RemoteCall.describeClusters (some "dr-db-cluster")], 0) ∧
    (DrStaging.run ⟨.create, .primaryAz, false⟩ (onlyClusterId "dr-db-cluster") exWorldSfound).2
      = 0 := by
  decide

/-- C9: the staging destroy confirmation is lenient: deletion proceeds
exactly when the confirmation value equals "YES" after stripping
surrounding whitespace and uppercasing (so "yes" and " Yes " are
accepted), and an absent confirmation variable defaults to "NO", aborting
the run as a no-op success (exit code 0). -/
theorem C9_confirmation_normalization (cfg : DrStaging.Config) (w : DrStaging.World)
    (az : AzChoice) (dns : Bool) :
    (pyUpper (pyStrip (cfg.CONFIRM_DESTROY.getD "NO")) = "YES" →
      (DrStaging.destroy_dr_cluster cfg w).1.head? =
        some (RemoteCall.deleteInstance cfg.DB_INSTANCE_IDENTIFIER)) ∧
    (pyUpper (pyStrip (cfg.CONFIRM_DESTROY.getD "NO")) ≠ "YES" →
      DrStaging.destroy_dr_cluster cfg w = ([], RunResult.exited 0)) ∧
    (cfg.CONFIRM_DESTROY = none →
      DrStaging.destroy_dr_cluster cfg w = ([], RunResult.exited 0) ∧
      (w.stsOk = true →
        DrStaging.run ⟨.destroy, az, dns⟩ cfg w = ([RemoteCall.getCallerIdentity], 0))) ∧
    pyUpper (pyStrip "yes") = "YES" ∧ pyUpper (pyStrip " Yes ") = "YES" := by
  have hno : pyUpper (pyStrip "NO") ≠ "YES" := by decide
  refine ⟨?_, ?_, ?_, by decide, by decide⟩
  · intro hcy
    rcases hdi : w.deleteInstanceResult <;>
      rcases hid : w.instanceDeleted <;>
        rcases hdc : w.deleteClusterResult <;>
          rcases hcd : w.clusterDeleted <;>
            simp [DrStaging.destroy_dr_cluster, hcy, hdi, hid, hdc, hcd]
  · intro hny
    simp [DrStaging.destroy_dr_cluster, hny]
  · intro hnone
    constructor
    · simp [DrStaging.destroy_dr_cluster, hnone, hno]
    · intro hsts
      simp [DrStaging.run, DrStaging.destroy_dr_cluster, hnone, hno, hsts]

/-- C9 witness: with `CONFIRM_DESTROY=" Yes "` deletion proceeds (the
first issued call is the instance deletion), and with the variable absent
the destroy aborts with exit 0. -/
theorem C9_confirmation_normalization_witness :
    (DrStaging.destroy_dr_cluster { exCfgS with CONFIRM_DESTROY := some " Yes " } exWorldS).1.head?
        = some (RemoteCall.deleteInstance (some "dr-db-instance")) ∧
    DrStaging.destroy_dr_cluster { exCfgS with CONFIRM_DESTROY := none } exWorldS
        = ([], RunResult.exited 0) :=
  ⟨(C9_confirmation_normalization { exCfgS with CONFIRM_DESTROY := some " Yes " }
      exWorldS .primaryAz false).1 (by decide),
   ((C9_confirmation_normalization { exCfgS with CONFIRM_DESTROY := none }
      exWorldS .primaryAz false).2.2.1 rfl).1⟩

/-- C7: both snapshot locators return exactly the filtered candidate with
the maximum creation timestamp whenever the matching candidates have
pairwise distinct timestamps, and exit with the fatal code 1 when zero
candidates match the filter. -/
theorem C7_locator_returns_latest (cfgR : DrRestore.Config) (wR : DrRestore.World)
    (snaps : List DrRestore.Snapshot)
    (cfgS : DrStaging.Config) (wS : DrStaging.World)
    (pts : List DrStaging.RecoveryPoint) (cid : String)
    (hwR : wR.snapshots = some snaps) (hwS : wS.recoveryPoints = some pts)
    (hcid : cfgS.DB_CLUSTER_IDENTIFIER = some cid) :
    (snaps.filter (DrRestore.snapshotTagMatch cfgR) = [] →
      (DrRestore.get_latest_snapshot cfgR wR).2 = RunResult.exited 1) ∧
    (∀ s ∈ snaps.filter (DrRestore.snapshotTagMatch cfgR),
      (∀ t ∈ snaps.filter (DrRestore.snapshotTagMatch cfgR),
        t ≠ s → t.snapshotCreateTime < s.snapshotCreateTime) →
      (DrRestore.get_latest_snapshot cfgR wR).2
        = RunResult.ok s.dbClusterSnapshotIdentifier) ∧
    (pts.filter (DrStaging.auroraPointMatch cid) = [] →
      (DrStaging.get_latest_backup_snapshot cfgS wS).2 = RunResult.exited 1) ∧
    (∀ p ∈ pts.filter (DrStaging.auroraPointMatch cid),
      (∀ q ∈ pts.filter (DrStaging.auroraPointMatch cid),
        q ≠ p → q.creationDate < p.creationDate) →
      (DrStaging.get_latest_backup_snapshot cfgS wS).2
        = RunResult.ok p.recoveryPointArn) := by
  refine ⟨?_, ?_, ?_, ?_⟩
  · intro hfil
    simp [DrRestore.get_latest_snapshot, hwR, hfil, sortDesc]
  · intro s hsmem hmax
    have hhead : (sortDesc (fun s => s.snapshotCreateTime)
        (snaps.filter (DrRestore.snapshotTagMatch cfgR))).head? = some s :=
      sortDesc_head_strictmax _ _ s hsmem hmax
    simp [DrRestore.get_latest_snapshot, hwR, hhead]
  · intro hfil
    simp [DrStaging.get_latest_backup_snapshot, hwS, hcid, hfil, sortDesc]
  · intro p hpmem hmax
    have hhead : (sortDesc (fun rp => rp.creationDate)
        (pts.filter (DrStaging.auroraPointMatch cid))).head? = some p :=
      sortDesc_head_strictmax _ _ p hpmem hmax
    simp [DrStaging.get_latest_backup_snapshot, hwS, hcid, hhead]

/-- C7 witness: with two matching candidates of distinct timestamps, both
locators return the one with the maximum timestamp. -/
theorem C7_locator_returns_latest_witness :
    (DrRestore.get_latest_snapshot exCfgR exWorldR2).2 = RunResult.ok "snap-1" ∧
    (DrStaging.get_latest_backup_snapshot exCfgS exWorldS2).2 = RunResult.ok "arn:rp-1" :=
  ⟨(C7_locator_returns_latest exCfgR exWorldR2 [exSnapOld, exSnapshot]
      exCfgS exWorldS2 [exPointOld, exPoint] "dr-db-cluster" rfl rfl rfl).2.1
      exSnapshot (by decide) (by decide),
   (C7_locator_returns_latest exCfgR exWorldR2 [exSnapOld, exSnapshot]
      exCfgS exWorldS2 [exPointOld, exPoint] "dr-db-cluster" rfl rfl rfl).2.2.2
      exPoint (by decide) (by decide)⟩

/-- C10: when several matching recovery points share the maximum creation
timestamp, both locators return the one appearing first in the listing
order: the descending sort is stable, so the head of the sorted filtered
list is the first listed candidate whose timestamp is maximal. -/
theorem C10_stable_tie_order (cfgR : DrRestore.Config) (wR : DrRestore.World)
    (snaps l₁ l₂ : List DrRestore.Snapshot) (x : DrRestore.Snapshot)
    (cfgS : DrStaging.Config) (wS : DrStaging.World)
    (pts m₁ m₂ : List DrStaging.RecoveryPoint) (y : DrStaging.RecoveryPoint)
    (cid : String)
    (hwR : wR.snapshots = some snaps)
    (hfR : snaps.filter (DrRestore.snapshotTagMatch cfgR) = l₁ ++ x :: l₂)
    (h1R : ∀ t ∈ l₁, t.snapshotCreateTime < x.snapshotCreateTime)
    (h2R : ∀ t ∈ l₂, t.snapshotCreateTime ≤ x.snapshotCreateTime)
    (hwS : wS.recoveryPoints = some pts) (hcid : cfgS.DB_CLUSTER_IDENTIFIER = some cid)
    (hfS : pts.filter (DrStaging.auroraPointMatch cid) = m₁ ++ y :: m₂)
    (h1S : ∀ q ∈ m₁, q.creationDate < y.creationDate)
    (h2S : ∀ q ∈ m₂, q.creationDate ≤ y.creationDate) :
    (DrRestore.get_latest_snapshot cfgR wR).2
      = RunResult.ok x.dbClusterSnapshotIdentifier ∧
    (DrStaging.get_latest_backup_snapshot cfgS wS).2
      = RunResult.ok y.recoveryPointArn := by
  constructor
  · have hhead : (sortDesc (fun s => s.snapshotCreateTime)
        (snaps.filter (DrRestore.snapshotTagMatch cfgR))).head? = some x := by
      rw [hfR]
      exact sortDesc_head_first _ l₁ x l₂ h1R h2R
    simp [DrRestore.get_latest_snapshot, hwR, hhead]
  · have hhead : (sortDesc (fun rp => rp.creationDate)
        (pts.filter (DrStaging.auroraPointMatch cid))).head? = some y := by
      rw [hfS]
      exact sortDesc_head_first _ m₁ y m₂ h1S h2S
    simp [DrStaging.get_latest_backup_snapshot, hwS, hcid, hhead]

/-- C10 witness: with two matching candidates sharing the maximum
timestamp, both locators return the first-listed one. -/
theorem C10_stable_tie_order_witness :
    (DrRestore.get_latest_snapshot exCfgR exWorldRtie).2 = RunResult.ok "snap-1" ∧
    (DrStaging.get_latest_backup_snapshot exCfgS exWorldStie).2 = RunResult.ok "arn:rp-1" :=
  C10_stable_tie_order exCfgR exWorldRtie [exSnapshot, exSnapTie] [] [exSnapTie] exSnapshot
    exCfgS exWorldStie [exPoint, exPointTie] [] [exPointTie] exPoint "dr-db-cluster"
    rfl (by decide) (by decide) (by decide) rfl rfl (by decide) (by decide) (by decide)

theorem firstIdx_append_of_any {α : Type} (p : α → Bool) :
    ∀ (l₁ l₂ : List α), l₁.any p = true → firstIdx p (l₁ ++ l₂) = firstIdx p l₁ := by
  intro l₁
  induction l₁ with
  | nil => intro l₂ h; simp at h
  | cons a l ih =>
      intro l₂ h
      rcases hpa : p a
      · have hl : l.any p = true := by
          rw [List.any_cons, hpa, Bool.false_or] at h
          exact h
        show (if p a = true then 0 else firstIdx p (l ++ l₂) + 1)
            = (if p a = true then 0 else firstIdx p l + 1)
        rw [hpa, ih l₂ hl]
      · show (if p a = true then 0 else firstIdx p (l ++ l₂) + 1)
            = (if p a = true then 0 else firstIdx p l + 1)
        rw [hpa]
        simp

/-- C3 (amended): for a run whose zone symbol maps to a configured
non-empty zone `z`, exactly one of the two provisioning requests carries
`z`: in `dr_staging_db_restore.py` the restore-cluster request is pinned
to `AvailabilityZones=[z]` while the create-instance request carries no
zone; in `dr_restore.py` the restore-cluster request carries no zone while
the create-instance request is pinned to `z`.  The original claim that
both requests carry the zone fails in both scripts; see the
counterexample. -/
theorem C3_zone_pinned_on_one_request (cfgS : DrStaging.Config) (wS : DrStaging.World)
    (arn : String) (cfgR : DrRestore.Config) (wR : DrRestore.World)
    (choice : AzChoice) (z sid : String)
    (hS : DrStaging.azMap cfgS choice = some z) (hz : z ≠ "")
    (hR : DrRestore.azMapping cfgR choice = some z)
    (hsid : (DrRestore.get_latest_snapshot cfgR wR).2 = RunResult.ok sid)
    (hro : wR.restoreOk = true) (hcio : wR.createInstanceOk = true) :
    (DrStaging.restore_cluster_from_snapshot cfgS wS arn choice).1.head? =
      some (RemoteCall.restoreCluster cfgS.DB_CLUSTER_IDENTIFIER arn (some [z])) ∧
    (∀ i c a, RemoteCall.createInstance i c a
        ∈ (DrStaging.restore_cluster_from_snapshot cfgS wS arn choice).1 → a = none) ∧
    (DrRestore.create_dr_cluster cfgR wR choice).1 =
      [RemoteCall.describeSnapshots,
       RemoteCall.restoreCluster cfgR.DB_CLUSTER_IDENTIFIER sid none,
       RemoteCall.createInstance cfgR.DB_INSTANCE_IDENTIFIER
         cfgR.DB_CLUSTER_IDENTIFIER (some z)] := by
  refine ⟨?_, ?_, ?_⟩
  · rcases hro2 : wS.restoreOk <;> rcases hca : wS.clusterAvailable <;>
      rcases hcio2 : wS.createInstanceOk <;> rcases hia : wS.instanceAvailable <;>
        simp [DrStaging.restore_cluster_from_snapshot, hS, hz, hro2, hca, hcio2, hia]
  · intro i c a hmem
    rcases hro2 : wS.restoreOk <;> rcases hca : wS.clusterAvailable <;>
      rcases hcio2 : wS.createInstanceOk <;> rcases hia : wS.instanceAvailable <;>
        simp [DrStaging.restore_cluster_from_snapshot, hS, hz, hro2, hca, hcio2, hia] at hmem <;>
          tauto
  · rcases hgls : DrRestore.get_latest_snapshot cfgR wR with ⟨calls, r⟩
    have hcalls : calls = [RemoteCall.describeSnapshots] := by
      have h := DrRestore.gls_trace cfgR wR
      rw [hgls] at h
      exact h
    have hr : r = RunResult.ok sid := by
      rw [hgls] at hsid
      exact hsid
    subst hcalls
    subst hr
    unfold DrRestore.create_dr_cluster
    rw [hgls]
    simp [hR, hz, hro, hcio]

/-- C3 witness: with the secondary zone mapped to "zone-b", the staging
restore request carries zone-b while the other script's instance request
carries zone-b. -/
theorem C3_zone_pinned_on_one_request_witness :
    (DrStaging.restore_cluster_from_snapshot exCfgS exWorldS "arn-x" .secondaryAz).1.head? =
      some (RemoteCall.restoreCluster (some "dr-db-cluster") "arn-x" (some ["zone-b"])) ∧
    (DrRestore.create_dr_cluster exCfgR exWorldR .secondaryAz).1 =
      [RemoteCall.describeSnapshots,
       RemoteCall.restoreCluster (some "dr-db-cluster") "snap-1" none,
       RemoteCall.createInstance (some "dr-db-instance") (some "dr-db-cluster")
         (some "zone-b")] :=
  ⟨(C3_zone_pinned_on_one_request exCfgS exWorldS "arn-x" exCfgR exWorldR .secondaryAz
      "zone-b" "snap-1" rfl (by decide) rfl (by decide) rfl rfl).1,
   (C3_zone_pinned_on_one_request exCfgS exWorldS "arn-x" exCfgR exWorldR .secondaryAz
      "zone-b" "snap-1" rfl (by decide) rfl (by decide) rfl rfl).2.2⟩

/-- C3 counterexample: in a staging create run with
`zoneChoice=secondary` mapped to "zone-b", the create-instance request
carries no zone at all, so the two remote requests are not both pinned to
zone-b as the claim states. -/
theorem C3_counterexample :
    RemoteCall.createInstance (some "dr-db-instance") (some "dr-db-cluster") none
        ∈ (DrStaging.run ⟨.create, .secondaryAz, false⟩ exCfgS exWorldS).1 ∧
    RemoteCall.createInstance (some "dr-db-instance") (some "dr-db-cluster") (some "zone-b")
        ∉ (DrStaging.run ⟨.create, .secondaryAz, false⟩ exCfgS exWorldS).1 := by
  decide

/-- C4 (amended): in `dr_staging_db_restore.py`, an unresolved zone symbol
(mapping entry unset or empty) makes the restore orchestrator exit 1
before issuing any remote call, and the whole create run issues zero
mutating remote calls — in particular no restore-cluster and no
create-instance request.  In `dr_restore.py` the restore-cluster request
is issued before the zone check, so only the instance request is
prevented; see the counterexample. -/
theorem C4_staging_zone_failfast (cfg : DrStaging.Config) (w : DrStaging.World)
    (choice : AzChoice) (dns : Bool)
    (haz : DrStaging.azMap cfg choice = none ∨ DrStaging.azMap cfg choice = some "") :
    (∀ arn, DrStaging.restore_cluster_from_snapshot cfg w arn choice
      = ([], RunResult.exited 1)) ∧
    (DrStaging.run ⟨.create, choice, dns⟩ cfg w).1.all (fun e => !e.isMutating) = true := by
  have hcomp : ∀ arn, DrStaging.restore_cluster_from_snapshot cfg w arn choice
      = ([], RunResult.exited 1) := by
    intro arn
    unfold DrStaging.restore_cluster_from_snapshot
    rcases haz with h | h <;> simp [h]
  refine ⟨hcomp, ?_⟩
  rcases hchk : DrStaging.check_existing_cluster cfg w with ⟨c1, r1⟩
  have hc1 : c1 = [RemoteCall.describeClusters cfg.DB_CLUSTER_IDENTIFIER] := by
    have h := DrStaging.cec_trace cfg w
    rw [hchk] at h
    exact h
  rcases hg : DrStaging.get_latest_backup_snapshot cfg w with ⟨c2, r2⟩
  have hc2 : c2 = [RemoteCall.listRecoveryPoints
      (cfg.BACKUP_VAULT_NAME.getD "disaster-recovery-vault")] := by
    have h := DrStaging.glbs_trace cfg w
    rw [hg] at h
    exact h
  subst hc1
  subst hc2
  rcases hsts : w.stsOk
  · simp [DrStaging.run, hsts, RemoteCall.isMutating]
  · rcases r1 with b | code
    · rcases b
      · rcases r2 with arn | code
        · simp [DrStaging.run, hsts, hchk, hg, hcomp arn, RemoteCall.isMutating]
        · simp [DrStaging.run, hsts, hchk, hg, RemoteCall.isMutating]
      · simp [DrStaging.run, hsts, hchk, RemoteCall.isMutating]
    · simp [DrStaging.run, hsts, hchk, RemoteCall.isMutating]

/-- C4 witness: with the primary zone mapping unset, the staging restore
orchestrator fails with no calls and the create run issues no mutating
call. -/
theorem C4_staging_zone_failfast_witness :
    DrStaging.restore_cluster_from_snapshot exCfgSnoAz exWorldS "arn-x" .primaryAz
      = ([], RunResult.exited 1) ∧
    (DrStaging.run ⟨.create, .primaryAz, false⟩ exCfgSnoAz exWorldS).1.all
      (fun e => !e.isMutating) = true :=
  ⟨(C4_staging_zone_failfast exCfgSnoAz exWorldS .primaryAz false (Or.inl rfl)).1 "arn-x",
   (C4_staging_zone_failfast exCfgSnoAz exWorldS .primaryAz false (Or.inl rfl)).2⟩

/-- C4 counterexample: in `dr_restore.py`, a create run whose primary zone
mapping is unset still issues the restore-cluster request (and only then
exits 1), refuting the claim that no restore-cluster request is ever sent
when the zone symbol does not resolve. -/
theorem C4_counterexample :
    (DrRestore.run ⟨.create, .primaryAz, false⟩ exCfgRnoAz exWorldR).1.any
        RemoteCall.isRestoreCluster = true ∧
    (DrRestore.run ⟨.create, .primaryAz, false⟩ exCfgRnoAz exWorldR).2 = 1 := by
  decide

theorem firstIdx_cons_not {α : Type} (p : α → Bool) (a : α) (l : List α)
    (h : p a = false) : firstIdx p (a :: l) = firstIdx p l + 1 := by
  show (if p a = true then 0 else firstIdx p l + 1) = firstIdx p l + 1
  rw [h]
  simp

/-- C2 (amended): in `dr_staging_db_restore.py` the create-instance call
is issued only after the cluster-availability wait has been observed to
succeed: if the wait raises (timeout), the run contains no create-instance
call and, whenever the wait was attempted, exits with code 1; and whenever
the trace contains a create-instance call, the wait succeeded and the
availability-wait call strictly precedes the create-instance call in the
trace.  In `dr_restore.py` there is no availability wait at all; see the
counterexample. -/
theorem C2_staging_instance_after_available (cfg : DrStaging.Config)
    (w : DrStaging.World) (az : AzChoice) (dns : Bool) :
    (w.clusterAvailable = false →
      (DrStaging.run ⟨.create, az, dns⟩ cfg w).1.all
        (fun e => !e.isCreateInstance) = true ∧
      ((DrStaging.run ⟨.create, az, dns⟩ cfg w).1.any
          RemoteCall.isWaitClusterAvailable = true →
        (DrStaging.run ⟨.create, az, dns⟩ cfg w).2 = 1)) ∧
    ((DrStaging.run ⟨.create, az, dns⟩ cfg w).1.any
        RemoteCall.isCreateInstance = true →
      w.clusterAvailable = true ∧
      firstIdx RemoteCall.isWaitClusterAvailable
          (DrStaging.run ⟨.create, az, dns⟩ cfg w).1 <
        firstIdx RemoteCall.isCreateInstance
          (DrStaging.run ⟨.create, az, dns⟩ cfg w).1) := by
  rcases hchk : DrStaging.check_existing_cluster cfg w with ⟨c1, r1⟩
  have hc1 : c1 = [RemoteCall.describeClusters cfg.DB_CLUSTER_IDENTIFIER] := by
    have h := DrStaging.cec_trace cfg w
    rw [hchk] at h
    exact h
  rcases hg : DrStaging.get_latest_backup_snapshot cfg w with ⟨c2, r2⟩
  have hc2 : c2 = [RemoteCall.listRecoveryPoints
      (cfg.BACKUP_VAULT_NAME.getD "disaster-recovery-vault")] := by
    have h := DrStaging.glbs_trace cfg w
    rw [hg] at h
    exact h
  rcases hu : DrStaging.update_dns_record cfg w with ⟨c4, r4⟩
  have hc4c : c4.all (fun e => !e.isCreateInstance) = true := by
    have h := (DrStaging.udr_clean cfg w).1
    rw [hu] at h
    exact h
  have hc4w : c4.all (fun e => !e.isWaitClusterAvailable) = true := by
    have h := (DrStaging.udr_clean cfg w).2
    rw [hu] at h
    exact h
  subst hc1
  subst hc2
  rcases hsts : w.stsOk
  · refine ⟨fun hca => ⟨?_, fun hwm => ?_⟩, fun hci => ?_⟩
    · simp [DrStaging.run, hsts, RemoteCall.isCreateInstance]
    · simp [DrStaging.run, hsts, RemoteCall.isWaitClusterAvailable] at hwm
    · simp [DrStaging.run, hsts, RemoteCall.isCreateInstance] at hci
  · rcases r1 with b | code1
    · rcases b
      · rcases r2 with arn | code2
        · rcases hrc : DrStaging.restore_cluster_from_snapshot cfg w arn az with ⟨c3, r3⟩
          refine ⟨fun hca => ?_, fun hci => ?_⟩
          · have h3all : c3.all (fun e => !e.isCreateInstance) = true := by
              have h := DrStaging.rcfs_noavail_nocreate cfg w arn az hca
              rw [hrc] at h
              exact h
            have h3exit : r3 = RunResult.exited 1 := by
              have h := DrStaging.rcfs_noavail_exit cfg w arn az hca
              rw [hrc] at h
              exact h
            subst h3exit
            have hrun1 : (DrStaging.run ⟨.create, az, dns⟩ cfg w).1
                = RemoteCall.getCallerIdentity ::
                  RemoteCall.describeClusters cfg.DB_CLUSTER_IDENTIFIER ::
                  RemoteCall.listRecoveryPoints
                    (cfg.BACKUP_VAULT_NAME.getD "disaster-recovery-vault") :: c3 := by
              simp [DrStaging.run, hsts, hchk, hg, hrc]
            constructor
            · rw [hrun1]
              simp only [List.all_cons, RemoteCall.isCreateInstance, Bool.not_false,
                Bool.true_and]
              exact h3all
            · intro _
              simp [DrStaging.run, hsts, hchk, hg, hrc]
          · rcases r3 with u3 | code3
            · cases dns
              · have hrun1 : (DrStaging.run ⟨.create, az, false⟩ cfg w).1
                    = RemoteCall.getCallerIdentity ::
                      RemoteCall.describeClusters cfg.DB_CLUSTER_IDENTIFIER ::
                      RemoteCall.listRecoveryPoints
                        (cfg.BACKUP_VAULT_NAME.getD "disaster-recovery-vault") :: c3 := by
                  simp [DrStaging.run, hsts, hchk, hg, hrc]
                rw [hrun1] at hci
                simp only [List.any_cons, RemoteCall.isCreateInstance, Bool.false_or] at hci
                have h34 := DrStaging.rcfs_create_after_wait cfg w arn az
                  (by rw [hrc]; exact hci)
                rw [hrc] at h34
                refine ⟨h34.1, ?_⟩
                rw [hrun1]
                rw [firstIdx_cons_not _ _ _ rfl, firstIdx_cons_not _ _ _ rfl,
                  firstIdx_cons_not _ _ _ rfl, firstIdx_cons_not _ _ _ rfl,
                  firstIdx_cons_not _ _ _ rfl, firstIdx_cons_not _ _ _ rfl]
                rw [h34.2.2.1, h34.2.2.2]
                omega
              · rcases r4 with u4 | code4
                · have hrun1 : (DrStaging.run ⟨.create, az, true⟩ cfg w).1
                      = RemoteCall.getCallerIdentity ::
                        RemoteCall.describeClusters cfg.DB_CLUSTER_IDENTIFIER ::
                        RemoteCall.listRecoveryPoints
                          (cfg.BACKUP_VAULT_NAME.getD "disaster-recovery-vault") :: (c3 ++ c4) := by
                    simp [DrStaging.run, hsts, hchk, hg, hrc, hu]
                  rw [hrun1] at hci
                  simp only [List.any_cons, RemoteCall.isCreateInstance, Bool.false_or,
                    List.any_append] at hci
                  have hc4cany : c4.any RemoteCall.isCreateInstance = false :=
                    any_eq_false_of_all_not _ c4 hc4c
                  rw [hc4cany, Bool.or_false] at hci
                  have h34 := DrStaging.rcfs_create_after_wait cfg w arn az
                    (by rw [hrc]; exact hci)
                  rw [hrc] at h34
                  refine ⟨h34.1, ?_⟩
                  rw [hrun1]
                  rw [firstIdx_cons_not _ _ _ rfl, firstIdx_cons_not _ _ _ rfl,
                    firstIdx_cons_not _ _ _ rfl, firstIdx_cons_not _ _ _ rfl,
                    firstIdx_cons_not _ _ _ rfl, firstIdx_cons_not _ _ _ rfl]
                  rw [firstIdx_append_of_any _ c3 c4 h34.2.1,
                    firstIdx_append_of_any _ c3 c4 hci]
                  rw [h34.2.2.1, h34.2.2.2]
                  omega
                · have hrun1 : (DrStaging.run ⟨.create, az, true⟩ cfg w).1
                      = RemoteCall.getCallerIdentity ::
                        RemoteCall.describeClusters cfg.DB_CLUSTER_IDENTIFIER ::
                        RemoteCall.listRecoveryPoints
                          (cfg.BACKUP_VAULT_NAME.getD "disaster-recovery-vault") :: (c3 ++ c4) := by
                    simp [DrStaging.run, hsts, hchk, hg, hrc, hu]
                  rw [hrun1] at hci
                  simp only [List.any_cons, RemoteCall.isCreateInstance, Bool.false_or,
                    List.any_append] at hci
                  have hc4cany : c4.any RemoteCall.isCreateInstance = false :=
                    any_eq_false_of_all_not _ c4 hc4c
                  rw [hc4cany, Bool.or_false] at hci
                  have h34 := DrStaging.rcfs_create_after_wait cfg w arn az
                    (by rw [hrc]; exact hci)
                  rw [hrc] at h34
                  refine ⟨h34.1, ?_⟩
                  rw [hrun1]
                  rw [firstIdx_cons_not _ _ _ rfl, firstIdx_cons_not _ _ _ rfl,
                    firstIdx_cons_not _ _ _ rfl, firstIdx_cons_not _ _ _ rfl,
                    firstIdx_cons_not _ _ _ rfl, firstIdx_cons_not _ _ _ rfl]
                  rw [firstIdx_append_of_any _ c3 c4 h34.2.1,
                    firstIdx_append_of_any _ c3 c4 hci]
                  rw [h34.2.2.1, h34.2.2.2]
                  omega
            · have hrun1 : (DrStaging.run ⟨.create, az, dns⟩ cfg w).1
                  = RemoteCall.getCallerIdentity ::
                    RemoteCall.describeClusters cfg.DB_CLUSTER_IDENTIFIER ::
                    RemoteCall.listRecoveryPoints
                      (cfg.BACKUP_VAULT_NAME.getD "disaster-recovery-vault") :: c3 := by
                simp [DrStaging.run, hsts, hchk, hg, hrc]
              rw [hrun1] at hci
              simp only [List.any_cons, RemoteCall.isCreateInstance, Bool.false_or] at hci
              have h34 := DrStaging.rcfs_create_after_wait cfg w arn az
                (by rw [hrc]; exact hci)
              rw [hrc] at h34
              refine ⟨h34.1, ?_⟩
              rw [hrun1]
              rw [firstIdx_cons_not _ _ _ rfl, firstIdx_cons_not _ _ _ rfl,
                firstIdx_cons_not _ _ _ rfl, firstIdx_cons_not _ _ _ rfl,
                firstIdx_cons_not _ _ _ rfl, firstIdx_cons_not _ _ _ rfl]
              rw [h34.2.2.1, h34.2.2.2]
              omega
        · refine ⟨fun hca => ⟨?_, fun hwm => ?_⟩, fun hci => ?_⟩
          · simp [DrStaging.run, hsts, hchk, hg, RemoteCall.isCreateInstance]
          · simp [DrStaging.run, hsts, hchk, hg, RemoteCall.isWaitClusterAvailable] at hwm
          · simp [DrStaging.run, hsts, hchk, hg, RemoteCall.isCreateInstance] at hci
      · refine ⟨fun hca => ⟨?_, fun hwm => ?_⟩, fun hci => ?_⟩
        · simp [DrStaging.run, hsts, hchk, RemoteCall.isCreateInstance]
        · simp [DrStaging.run, hsts, hchk, RemoteCall.isWaitClusterAvailable] at hwm
        · simp [DrStaging.run, hsts, hchk, RemoteCall.isCreateInstance] at hci
    · refine ⟨fun hca => ⟨?_, fun hwm => ?_⟩, fun hci => ?_⟩
      · simp [DrStaging.run, hsts, hchk, RemoteCall.isCreateInstance]
      · simp [DrStaging.run, hsts, hchk, RemoteCall.isWaitClusterAvailable] at hwm
      · simp [DrStaging.run, hsts, hchk, RemoteCall.isCreateInstance] at hci

/-- C2 witness: in a successful staging create run the availability wait
succeeded and its call precedes the create-instance call in the trace. -/
theorem C2_staging_instance_after_available_witness :
    exWorldS.clusterAvailable = true ∧
    firstIdx RemoteCall.isWaitClusterAvailable
        (DrStaging.run ⟨.create, .secondaryAz, false⟩ exCfgS exWorldS).1 <
      firstIdx RemoteCall.isCreateInstance
        (DrStaging.run ⟨.create, .secondaryAz, false⟩ exCfgS exWorldS).1 :=
  (C2_staging_instance_after_available exCfgS exWorldS .secondaryAz false).2 (by decide)

/-- C2 counterexample: in `dr_restore.py` a create run issues the
create-instance call although no cluster-availability wait appears
anywhere in its trace — the instance is requested immediately after the
restore request, never after the cluster has been observed available. -/
theorem C2_counterexample :
    (DrRestore.run ⟨.create, .primaryAz, false⟩ exCfgR exWorldR).1.any
        RemoteCall.isCreateInstance = true ∧
    (DrRestore.run ⟨.create, .primaryAz, false⟩ exCfgR exWorldR).1.any
        RemoteCall.isWaitClusterAvailable = false := by
  decide
